import Mathlib

/-!
Shallow embedding of the command-safety classification and execution
subsystem of the `claudia-lite` repository
(`crates/agent_host/src/executor.rs` and `crates/agent_host/src/lib.rs`),
together with theorems settling the specification claims about it.

Modelling conventions:
* Rust `String`/`&str` values are Lean `String`s; character-level operations
  are carried out on `String.data : List Char`.
* Rust `str::contains` (substring containment) is `containsSub`,
  `str::starts_with` is `List.isPrefixOf`, `str::to_lowercase` is a
  per-character ASCII lowering (`Char.toLower`), `str::trim` is
  `trimChars`.  All literals appearing in the source tables are ASCII, so
  the ASCII-only lowering is faithful on every byte the tables can match.
* A process exit status is modelled as `Option Int`: `some n` is a normal
  exit with code `n`, `none` is termination without a code (killed by a
  signal).  On Unix `ExitStatus::success()` holds exactly for `some 0`,
  and `ExitStatus::code()` is the `Option`.
* The subprocess environment is an oracle handed to the executor: for each
  command it yields the captured stdout/stderr, the exit status (or a
  spawn failure or a timeout) and the elapsed duration in milliseconds.
* `&combined[..10000]` (a byte slice of a UTF-8 string) panics in Rust when
  byte 10000 is not a character boundary; the combining step is therefore
  modelled as `Option`-valued (`none` = runtime panic), and
  `execute_command` returns `Option CommandResult`.
* The LLM provider is an oracle `List ChatMessage → String`; a provider
  failure would abort the whole loop in the source, so the loop theorems
  are stated for providers that return text.
-/

/-- Danger level for commands (`executor.rs`, `enum DangerLevel`). -/
inductive DangerLevel where
  | Safe
  | NeedsConfirmation
  | Dangerous
  | NeedsSudo
  | Blocked
deriving DecidableEq

/-- Result of command execution (`executor.rs`, `struct CommandResult`). -/
structure CommandResult where
  command : String
  exit_code : Int
  stdout : String
  stderr : String
  output : String
  duration_ms : Nat
  success : Bool
  summary : String
  needed_sudo : Bool
deriving DecidableEq

/-- Safe commands that can run without confirmation (`SAFE_COMMANDS`). -/
def SAFE_COMMANDS : List String := [
  "ls", "find", "cat", "head", "tail", "wc", "du", "df", "pwd",
  "file", "stat", "tree", "which", "whereis", "type",
  "grep", "rg", "ag", "awk", "sed", "sort", "uniq", "cut", "tr",
  "diff", "comm", "join", "paste", "column",
  "uname", "hostname", "uptime", "free", "ps", "top", "htop",
  "lscpu", "lsblk", "lsusb", "lspci", "lsof", "id", "whoami",
  "date", "cal", "env", "printenv",
  "ip", "ifconfig", "netstat", "ss", "ping", "nslookup", "dig",
  "host", "traceroute", "curl", "wget",
  "git status", "git log", "git diff", "git show", "git branch",
  "git remote", "git fetch", "git ls-files", "git blame",
  "cargo check", "cargo test", "cargo build", "cargo clippy",
  "cargo fmt --check", "rustc --version", "cargo --version",
  "node --version", "npm --version", "python --version", "pip --version",
  "python -c", "node -e",
  "tar -tf", "unzip -l", "zipinfo"]

/-- Commands that need user confirmation before running (`NEEDS_CONFIRMATION`). -/
def NEEDS_CONFIRMATION : List String := [
  "cp", "mv", "mkdir", "touch", "ln",
  "git add", "git commit", "git push", "git pull", "git merge",
  "git checkout", "git reset", "git stash",
  "pip install", "npm install", "cargo install",
  "nano", "vim", "nvim", "code"]

/-- Dangerous commands that need explicit confirmation with warning (`DANGEROUS_COMMANDS`). -/
def DANGEROUS_COMMANDS : List String := [
  "rm", "rmdir", "shred",
  "chmod", "chown", "chgrp",
  "kill", "killall", "pkill",
  "git reset --hard", "git clean", "git push --force",
  "drop", "delete", "truncate"]

/-- Commands that are always blocked (`BLOCKED_COMMANDS`).  The fork-bomb
literal contains shell braces, written here with hex escapes. -/
def BLOCKED_COMMANDS : List String := [
  "rm -rf /", "rm -rf /*", ":()\x7b :|:& \x7d;:",
  "mkfs", "dd if=/dev/zero", "dd if=/dev/random",
  "> /dev/sda", ">/dev/sda",
  "nc -l", "nmap"]

/-- Model of Rust `str::contains pat` on character lists: some suffix of the
haystack has the pattern as a prefix. -/
def containsSub (hay pat : List Char) : Bool :=
  match hay with
  | [] => pat.isEmpty
  | _ :: t => pat.isPrefixOf hay || containsSub t pat

/-- `containsSub` lifted to `String` (Rust `str::contains` on `&str`s). -/
def containsStr (hay pat : String) : Bool :=
  containsSub hay.data pat.data

/-- Model of Rust `str::trim`: drop whitespace from both ends. -/
def trimChars (s : List Char) : List Char :=
  ((s.dropWhile Char.isWhitespace).reverse.dropWhile Char.isWhitespace).reverse

/-- The normalisation performed at the top of `classify_command`:
`cmd.to_lowercase()` followed by `.trim()`. -/
def normalizeCmd (cmd : String) : List Char :=
  trimChars (cmd.data.map Char.toLower)

/-- Classify a command by danger level (`executor.rs`, `classify_command`).
The source iterates over each table returning on the first hit; since each
tier returns a constant, this is the same as an `any` test per tier, taken
in the source's priority order. -/
def classify_command (cmd : String) : DangerLevel :=
  if BLOCKED_COMMANDS.any (fun b => containsSub (normalizeCmd cmd) b.data) then
    DangerLevel.Blocked
  else if "sudo ".data.isPrefixOf (normalizeCmd cmd) then
    DangerLevel.NeedsSudo
  else if DANGEROUS_COMMANDS.any (fun d =>
      d.data.isPrefixOf (normalizeCmd cmd) ||
      containsSub (normalizeCmd cmd) (' ' :: d.data)) then
    DangerLevel.Dangerous
  else if NEEDS_CONFIRMATION.any (fun c => c.data.isPrefixOf (normalizeCmd cmd)) then
    DangerLevel.NeedsConfirmation
  else if SAFE_COMMANDS.any (fun s => s.data.isPrefixOf (normalizeCmd cmd)) then
    DangerLevel.Safe
  else
    DangerLevel.NeedsConfirmation

/-- `AgentHost::needs_confirmation` (`lib.rs`): true when the classification
is `NeedsConfirmation`, `Dangerous` or `NeedsSudo` (the `matches!` macro).
The `AgentHost` settings are not consulted by the source method. -/
def needs_confirmation (cmd : String) : Bool :=
  match classify_command cmd with
  | DangerLevel.NeedsConfirmation => true
  | DangerLevel.Dangerous => true
  | DangerLevel.NeedsSudo => true
  | _ => false

/-- Split a character list at newline characters (every part is returned,
including a final empty part for a trailing newline). -/
def splitNl : List Char → List (List Char)
  | [] => [[]]
  | c :: t =>
    if c = '\n' then [] :: splitNl t
    else
      match splitNl t with
      | h :: r => (c :: h) :: r
      | [] => [[c]]

/-- Model of Rust `str::lines()`: split at `\n`, strip a trailing `\r` from
every newline-terminated line, and do not produce a final empty line for a
trailing newline.  A last line without a terminator is kept verbatim. -/
def rustLines (s : String) : List String :=
  if s.data.isEmpty then []
  else
    let parts := splitNl s.data
    let lastPart := (parts.getLast?).getD []
    let terminated := parts.dropLast.map (fun l =>
      if l.getLast? = some '\r' then String.mk l.dropLast else String.mk l)
    if lastPart.isEmpty then terminated else terminated ++ [String.mk lastPart]

/-- Model of Rust `cmd.split_whitespace().next()`: the first maximal
whitespace-free token, if any. -/
def firstWsToken (s : List Char) : Option (List Char) :=
  let t := s.dropWhile Char.isWhitespace
  if t.isEmpty then none else some (t.takeWhile (fun c => !c.isWhitespace))

/-- Generate a user-friendly summary of command execution
(`executor.rs`, `generate_summary`). -/
def generate_summary (cmd stdout stderr : String) (success : Bool)
    (duration_ms : Nat) : String :=
  let cmd_base := match firstWsToken cmd.data with
    | some t => String.mk t
    | none => cmd
  if !success then
    if containsStr stderr "command not found" then
      "\x27" ++ cmd_base ++ "\x27 is not installed"
    else if containsStr stderr "No such file" then
      "File or directory not found"
    else if containsStr stderr "Permission denied" then
      "Permission denied - may need admin access"
    else
      "Command failed (" ++ toString duration_ms ++ "ms)"
  else if cmd_base = "ls" || cmd_base = "find" || cmd_base = "tree" then
    "Found " ++ toString (rustLines stdout).length ++ " items (" ++
      toString duration_ms ++ "ms)"
  else if cmd_base = "grep" || cmd_base = "rg" || cmd_base = "ag" then
    if (rustLines stdout).length = 0 then "No matches found"
    else "Found " ++ toString (rustLines stdout).length ++ " matches (" ++
      toString duration_ms ++ "ms)"
  else if cmd_base = "cat" || cmd_base = "head" || cmd_base = "tail" then
    "Displayed " ++ toString (rustLines stdout).length ++ " lines (" ++
      toString duration_ms ++ "ms)"
  else if cmd_base = "cp" || cmd_base = "mv" then "File operation complete"
  else if cmd_base = "mkdir" then "Directory created"
  else if cmd_base = "rm" || cmd_base = "rmdir" then "Deleted successfully"
  else if cmd_base = "git" then
    if containsStr cmd "status" then
      if containsStr stdout "nothing to commit" then "Working tree clean"
      else "Changes detected"
    else if containsStr cmd "commit" then "Committed successfully"
    else if containsStr cmd "push" then "Pushed to remote"
    else "Git operation complete (" ++ toString duration_ms ++ "ms)"
  else if cmd_base = "cargo" then
    if containsStr cmd "build" then
      if containsStr stdout "Finished" || containsStr stderr "Finished" then
        "Build complete"
      else "Build in progress..."
    else if containsStr cmd "test" then
      if containsStr stdout "passed" then "Tests passed" else "Tests complete"
    else "Cargo complete (" ++ toString duration_ms ++ "ms)"
  else
    "Complete (" ++ toString duration_ms ++ "ms)"

/-- Number of bytes of the UTF-8 encoding of a character. -/
def charSize (c : Char) : Nat :=
  if c.toNat < 128 then 1
  else if c.toNat < 2048 then 2
  else if c.toNat < 65536 then 3
  else 4

/-- Byte length of the UTF-8 encoding of a character list
(Rust `String::len`). -/
def byteLen (s : List Char) : Nat :=
  (s.map charSize).sum

/-- The character prefix of `s` occupying exactly `budget` UTF-8 bytes, or
`none` if `budget` does not fall on a character boundary (including the case
`budget > byteLen s`).  Models Rust's `&s[..budget]`, which panics exactly
when this returns `none` (for `budget < s.len()`). -/
def utf8Prefix : List Char → Nat → Option (List Char)
  | _, 0 => some []
  | [], Nat.succ _ => none
  | c :: cs, Nat.succ b =>
    if charSize c ≤ Nat.succ b then
      (utf8Prefix cs (Nat.succ b - charSize c)).map (fun p => c :: p)
    else none

/-- The text appended after the first 10000 bytes when the combined output is
truncated: `"...\n[Output truncated, ", total, " bytes total]"`. -/
def truncMarker (total : Nat) : List Char :=
  ("...\n[Output truncated, " ++ toString total ++ " bytes total]").data

/-- The untruncated combined output: stdout, then stderr, separated by a
newline only when both are non-empty (`executor.rs` lines 206-212). -/
def combineChars (stdout stderr : List Char) : List Char :=
  if stderr.isEmpty then stdout
  else if stdout.isEmpty then stderr
  else stdout ++ '\n' :: stderr

/-- The output-combining and truncation step of `execute_command`
(`executor.rs` lines 205-218).  When the combined output exceeds 10000 bytes
the source slices `&combined[..10000]`, which panics if byte 10000 is not a
character boundary; that panic is modelled by `none`. -/
def combineOutput (stdout stderr : List Char) : Option (List Char) :=
  if byteLen (combineChars stdout stderr) > 10000 then
    match utf8Prefix (combineChars stdout stderr) 10000 with
    | none => none
    | some p => some (p ++ truncMarker (byteLen (combineChars stdout stderr)))
  else some (combineChars stdout stderr)

/-- Outcome of one subprocess run, as delivered by the operating system:
a completed process (captured stdout/stderr and exit status), a spawn
failure, or a timeout.  The `Nat` paired with it by the oracle is the
elapsed duration in milliseconds. -/
inductive SpawnOutcome where
  | completed (stdout stderr : String) (status : Option Int)
  | spawnError (msg : String)
  | timedOut
deriving DecidableEq

/-- Execute a command and return a structured result (`executor.rs`,
`execute_command`).  `spawn` is the subprocess oracle; `none` models the
byte-slice panic in the truncation step, the only runtime fault the
function can produce. -/
def execute_command (spawn : String → Nat → SpawnOutcome × Nat)
    (cmd : String) (timeout_secs : Nat) : Option CommandResult :=
  if classify_command cmd = DangerLevel.Blocked then
    some { command := cmd, exit_code := -1, stdout := "",
           stderr := "This command is blocked for safety reasons.",
           output := "This command is blocked for safety reasons.",
           duration_ms := 0, success := false,
           summary := "Command blocked for safety", needed_sudo := false }
  else
    match spawn cmd timeout_secs with
    | (SpawnOutcome.completed stdout stderr status, duration_ms) =>
      match combineOutput stdout.data stderr.data with
      | none => none
      | some combined =>
        some { command := cmd, exit_code := status.getD (-1),
               stdout := stdout, stderr := stderr,
               output := String.mk combined, duration_ms := duration_ms,
               success := status == some 0,
               summary := generate_summary cmd stdout stderr
                 (status == some 0) duration_ms,
               needed_sudo := containsStr stderr "Permission denied" ||
                 containsStr stderr "Operation not permitted" ||
                 containsStr stderr "password" }
    | (SpawnOutcome.spawnError e, duration_ms) =>
      some { command := cmd, exit_code := -1, stdout := "", stderr := e,
             output := "Failed to execute: " ++ e,
             duration_ms := duration_ms, success := false,
             summary := "Command failed: " ++ e, needed_sudo := false }
    | (SpawnOutcome.timedOut, duration_ms) =>
      some { command := cmd, exit_code := -1, stdout := "",
             stderr := "Command timed out",
             output := "Command timed out after " ++ toString timeout_secs ++
               " seconds",
             duration_ms := duration_ms, success := false,
             summary := "Timed out after " ++ toString timeout_secs ++ "s",
             needed_sudo := false }

/-- Split a character list at the first occurrence of `sep`: returns the part
before it and the part after it (the separator removed).  Models Rust
`s.find(sep)` followed by the slices `&s[..idx]` and `&s[idx + 1..]`. -/
def splitAtChar (sep : Char) : List Char → Option (List Char × List Char)
  | [] => none
  | c :: t =>
    if c = sep then some ([], t)
    else
      match splitAtChar sep t with
      | some (a, b) => some (c :: a, b)
      | none => none

/-- The stderr scrub of `execute_with_sudo` (`executor.rs` lines 411-417):
if a newline exists and the first line contains `"password for"` or
`"[sudo]"`, drop the first line (and its newline); otherwise leave the
captured stderr unchanged. -/
def scrubSudoPrompt (stderr : List Char) : List Char :=
  match splitAtChar '\n' stderr with
  | none => stderr
  | some (first_line, rest) =>
    if containsSub first_line "password for".data ||
       containsSub first_line "[sudo]".data then rest
    else stderr

/-- The predicate selecting characters before the first newline. -/
def notNl (c : Char) : Bool := c != '\n'

/-- Specification-style restatement of the scrub used to characterise
`scrubSudoPrompt`: the first line is the maximal newline-free leading
segment, and scrubbing drops everything through the first newline. -/
def scrubSpec (serr : String) : String :=
  if ('\n' ∈ serr.data ∧
      (containsSub (serr.data.takeWhile notNl) "password for".data ||
       containsSub (serr.data.takeWhile notNl) "[sudo]".data) = true)
  then String.mk ((serr.data.dropWhile notNl).tail)
  else serr

/-- Model of `cmd.strip_prefix("sudo ").unwrap_or(cmd)`. -/
def stripSudo (cmd : String) : String :=
  if "sudo ".data.isPrefixOf cmd.data then String.mk (cmd.data.drop 5) else cmd

/-- The wrong-password heuristic of `execute_with_sudo` (`executor.rs`
lines 423-425), applied to the captured stderr after the prompt scrub. -/
def sudoWrongPassword (stderr0 : String) : Bool :=
  containsStr (String.mk (scrubSudoPrompt stderr0.data)) "incorrect password" ||
  containsStr (String.mk (scrubSudoPrompt stderr0.data)) "Sorry, try again" ||
  containsStr (String.mk (scrubSudoPrompt stderr0.data)) "Authentication failure"

/-- Outcome of the elevated subprocess run in `execute_with_sudo`:
a completed wait (captured stdout/stderr and exit status), an error from
`wait_with_output`, a timeout, or a failure of `spawn`/stdin-write itself
(which the source propagates with `?` instead of building a result). -/
inductive SudoOutcome where
  | completed (stdout stderr : String) (status : Option Int)
  | waitError (msg : String)
  | timedOut
  | spawnFail (msg : String)
deriving DecidableEq

/-- Execute a command with sudo (`executor.rs`, `execute_with_sudo`, POSIX
variant).  The password is written to the child's stdin by the source and
never copied into any field of the result; the oracle receives only the
command (after the `sudo ` prefix strip) and the timeout.  `Except.error`
models the `?`-propagated spawn/stdin failures. -/
def execute_with_sudo (spawn : String → Nat → SudoOutcome × Nat)
    (cmd password : String) (timeout_secs : Nat) :
    Except String CommandResult :=
  match spawn (stripSudo cmd) timeout_secs with
  | (SudoOutcome.spawnFail e, _) => Except.error e
  | (SudoOutcome.completed stdout stderr0 status, duration_ms) =>
    Except.ok
      { command := "sudo " ++ stripSudo cmd,
        exit_code := status.getD (-1),
        stdout := stdout,
        stderr := String.mk (scrubSudoPrompt stderr0.data),
        output := String.mk (combineChars stdout.data
          (scrubSudoPrompt stderr0.data)),
        duration_ms := duration_ms,
        success := (status == some 0) && !(sudoWrongPassword stderr0),
        summary :=
          if sudoWrongPassword stderr0 then "Incorrect password"
          else if status == some 0 then
            generate_summary cmd stdout (String.mk (scrubSudoPrompt stderr0.data))
              (status == some 0) duration_ms
          else
            "Command failed: " ++
              ((rustLines (String.mk (scrubSudoPrompt stderr0.data))).headD
                "unknown error"),
        needed_sudo := true }
  | (SudoOutcome.waitError e, duration_ms) =>
    Except.ok
      { command := "sudo " ++ stripSudo cmd, exit_code := -1, stdout := "",
        stderr := e, output := "Failed to execute: " ++ e,
        duration_ms := duration_ms, success := false,
        summary := "Command failed: " ++ e, needed_sudo := true }
  | (SudoOutcome.timedOut, duration_ms) =>
    Except.ok
      { command := "sudo " ++ stripSudo cmd, exit_code := -1, stdout := "",
        stderr := "Command timed out",
        output := "Command timed out after " ++ toString timeout_secs ++
          " seconds",
        duration_ms := duration_ms, success := false,
        summary := "Timed out after " ++ toString timeout_secs ++ "s",
        needed_sudo := true }

/-- A chat message (role and content), as used by the agent loop. -/
structure ChatMessage where
  role : String
  content : String
deriving DecidableEq

/-- Tool result from command execution (`lib.rs`, `struct ToolResult`). -/
structure ToolResult where
  command : String
  result : CommandResult
deriving DecidableEq

/-- Drop everything up to and including the first occurrence of `pat`;
`none` when `pat` does not occur. -/
def dropAfterSub (pat : List Char) : List Char → Option (List Char)
  | [] => if pat.isEmpty then some [] else none
  | c :: t =>
    if pat.isPrefixOf (c :: t) then some ((c :: t).drop pat.length)
    else dropAfterSub pat t

/-- Split at the first occurrence of `pat`: the part before it and the part
after it.  `none` when `pat` does not occur. -/
def splitAtSub (pat : List Char) : List Char → Option (List Char × List Char)
  | [] => if pat.isEmpty then some ([], []) else none
  | c :: t =>
    if pat.isPrefixOf (c :: t) then some ([], (c :: t).drop pat.length)
    else
      match splitAtSub pat t with
      | some (a, b) => some (c :: a, b)
      | none => none

/-- For the regex `<command>(.*?)</command>` (where `.` does not match a
newline): given the text just after an opening tag, return the shortest
newline-free capture up to a closing tag and the text after that closing
tag, or `none` when no closing tag is reachable without crossing a
newline. -/
def findCloseNoNewline : List Char → Option (List Char × List Char)
  | [] => none
  | c :: t =>
    if "</command>".data.isPrefixOf (c :: t) then some ([], (c :: t).drop 10)
    else if c = '\n' then none
    else
      match findCloseNoNewline t with
      | some (cap, rest) => some (c :: cap, rest)
      | none => none

/-- All captures of `<command>(.*?)</command>` in encounter order, trimmed,
empty captures discarded (`lib.rs`, `extract_commands`, pattern 1).  On a
failed match attempt the scan advances one character, exactly as the regex
engine does; `fuel` bounds the recursion and any value at least the text
length is sufficient. -/
def scanPat1 : Nat → List Char → List String
  | 0, _ => []
  | _, [] => []
  | Nat.succ fuel, c :: t =>
    if "<command>".data.isPrefixOf (c :: t) then
      match findCloseNoNewline ((c :: t).drop 9) with
      | some (cap, rest) =>
        if (trimChars cap).isEmpty then scanPat1 fuel rest
        else String.mk (trimChars cap) :: scanPat1 fuel rest
      | none => scanPat1 fuel t
    else scanPat1 fuel t

/-- For the regex fragment `` ```(?:bash|sh|shell)?\n ``: if the text starts
with a fence-opening (three backticks, an optional language tag, then a
newline), return the text after the newline. -/
def fenceOpenRest (s : List Char) : Option (List Char) :=
  if "```bash\n".data.isPrefixOf s then some (s.drop 8)
  else if "```sh\n".data.isPrefixOf s then some (s.drop 6)
  else if "```shell\n".data.isPrefixOf s then some (s.drop 9)
  else if "```\n".data.isPrefixOf s then some (s.drop 4)
  else none

/-- The earliest fence-opening at or after the current position (the lazy
`.*?` between `[RUN]` and the fence); returns the text just after it. -/
def findFenceOpen : List Char → Option (List Char)
  | [] => none
  | c :: t =>
    match fenceOpenRest (c :: t) with
    | some r => some r
    | none => findFenceOpen t

/-- The per-line filter applied to a fenced block's capture: each line is
trimmed, and empty lines and lines starting with `#` are discarded. -/
def blockCmds (cap : List Char) : List String :=
  (rustLines (String.mk cap)).filterMap (fun line =>
    if (trimChars line.data).isEmpty then none
    else if (trimChars line.data).head? = some '#' then none
    else some (String.mk (trimChars line.data)))

/-- All captures of `(?s)\[RUN\].*?`AAA`(?:bash|sh|shell)?\n(.*?)`AAA` (with
`AAA` standing for three backticks) in encounter order (`extract_commands`,
pattern 2), split into per-line commands.  A failed attempt at one `[RUN]`
marker implies no later attempt can succeed (a later fence-opening would
itself provide the missing closing backticks), so the scan stops there. -/
def scanPat2 : Nat → List Char → List String
  | 0, _ => []
  | Nat.succ fuel, s =>
    match dropAfterSub "[RUN]".data s with
    | none => []
    | some afterRun =>
      match findFenceOpen afterRun with
      | none => []
      | some afterOpen =>
        match splitAtSub "```".data afterOpen with
        | none => []
        | some (cap, rest) => blockCmds cap ++ scanPat2 fuel rest

/-- The character class `\s` of the regex engine. -/
def regexWs (c : Char) : Bool :=
  c = ' ' || c = '\t' || c = '\n' || c = '\r' ||
  c = Char.ofNat 11 || c = Char.ofNat 12

/-- All captures of ``\[EXECUTE\]\s*`([^`]+)` `` in encounter order
(`extract_commands`, pattern 3), trimmed, empty discarded.  After a failed
attempt the scan resumes just after the `[EXECUTE]` marker, which is where
the next possible match can start. -/
def scanPat3 : Nat → List Char → List String
  | 0, _ => []
  | Nat.succ fuel, s =>
    match dropAfterSub "[EXECUTE]".data s with
    | none => []
    | some afterMark =>
      match afterMark.dropWhile regexWs with
      | [] => scanPat3 fuel afterMark
      | c :: t =>
        if c = Char.ofNat 96 then
          match splitAtChar (Char.ofNat 96) t with
          | some (cap, rest) =>
            if cap.isEmpty then scanPat3 fuel afterMark
            else if (trimChars cap).isEmpty then scanPat3 fuel rest
            else String.mk (trimChars cap) :: scanPat3 fuel rest
          | none => scanPat3 fuel afterMark
        else scanPat3 fuel afterMark

/-- Extract commands from an AI response (`lib.rs`, `extract_commands`):
the three patterns are scanned independently over the whole response and
their hits concatenated in pattern order. -/
def extract_commands (response : String) : List String :=
  scanPat1 (response.data.length + 1) response.data ++
  scanPat2 (response.data.length + 1) response.data ++
  scanPat3 (response.data.length + 1) response.data

/-- The agent system prompt (`lib.rs`, `get_agent_system_prompt`), inserted
at the head of the conversation by `agent_chat`. -/
def agentSystemPrompt : String :=
  "You are Little Helper, a friendly AI assistant with the ability to run commands on the user\x27s computer.\n\n## Your Capabilities\n- You can execute shell commands to help users find files, check system status, and perform tasks\n- You have access to common Unix/Linux commands\n- You can read files, search directories, and gather information\n\n## How to Run Commands\nWhen you need to run a command, use one of these formats:\n\n1. Command tags (preferred):\n   <command>ls -la</command>\n\n2. Code blocks with [RUN] marker:\n   [RUN]\n   ```bash\n   ls -la\n   ```\n\n3. Inline with [EXECUTE] marker:\n   [EXECUTE] `git status`\n\n## Safety Rules\n- NEVER run destructive commands without explicit user confirmation\n- NEVER access sensitive files without permission\n- NEVER run commands you don\x27t understand\n- If a command fails due to permissions, explain what happened and suggest alternatives\n\n## File Viewing\nWhen you find or create files that the user should see, tell them you\x27re opening the file:\n\"I\x27ll open that file for you to view.\"\n\nThe UI will automatically display files when you reference their paths.\n\n## Response Style\n- Be conversational and helpful\n- Explain what commands do before running them\n- Summarize results in plain English\n- If something fails, explain why and suggest alternatives\n"

/-- The fixed message returned when the iteration cap is reached
(`lib.rs`, `agent_chat`, after the loop). -/
def maxIterationsMessage : String :=
  "I\x27ve reached the maximum number of command iterations. Please continue manually."

/-- The inner per-command pass of one `agent_chat` iteration (`lib.rs`
lines 75-122).  Arguments after the fixed environment: remaining commands,
number of executions performed so far in the whole run (indexing into the
spawn environment), the accumulated messages, the accumulated tool results,
and the `executed_any` flag.  Returns the updated quadruple, or `none` when
`execute_command` panics (which would unwind through the loop). -/
def processCommands (spawnEnv : Nat → String → Nat → SpawnOutcome × Nat)
    (auto_execute_safe : Bool) (response : String) :
    List String → Nat → List ChatMessage → List ToolResult → Bool →
    Option (Nat × List ChatMessage × List ToolResult × Bool)
  | [], k, msgs, trs, executed_any => some (k, msgs, trs, executed_any)
  | cmd :: rest, k, msgs, trs, executed_any =>
    if (match classify_command cmd with
        | DangerLevel.Safe => auto_execute_safe
        | DangerLevel.Blocked => false
        | _ => false) then
      match execute_command (spawnEnv k) cmd 30 with
      | none => none
      | some result =>
        processCommands spawnEnv auto_execute_safe response rest (k + 1)
          (msgs ++ [{ role := "assistant", content := response },
            { role := "user",
              content := "[Command Output]\n$ " ++ cmd ++ "\n" ++
                result.output ++ "\nExit code: " ++ toString result.exit_code }])
          (trs ++ [{ command := cmd, result := result }]) true
    else if classify_command cmd = DangerLevel.Blocked then
      processCommands spawnEnv auto_execute_safe response rest k
        (msgs ++ [{ role := "assistant", content := response },
          { role := "user",
            content := "[Command Blocked]\n$ " ++ cmd ++
              "\nThis command is blocked for safety reasons." }])
        trs true
    else
      processCommands spawnEnv auto_execute_safe response rest k msgs trs
        executed_any

/-- The bounded multi-turn loop of `agent_chat` (`lib.rs` lines 62-134).
`fuel` is the number of remaining iterations of `for _ in 0..10`; when it
reaches zero the fixed maximum-iterations message is returned with the
accumulated tool results. -/
def agentLoop (provider : List ChatMessage → String)
    (spawnEnv : Nat → String → Nat → SpawnOutcome × Nat)
    (auto_execute_safe : Bool) :
    Nat → Nat → List ChatMessage → List ToolResult →
    Option (String × List ToolResult)
  | 0, _, _, trs => some (maxIterationsMessage, trs)
  | Nat.succ fuel, k, msgs, trs =>
    if (extract_commands (provider msgs)).isEmpty then
      some (provider msgs, trs)
    else
      match processCommands spawnEnv auto_execute_safe (provider msgs)
          (extract_commands (provider msgs)) k msgs trs false with
      | none => none
      | some (k2, msgs2, trs2, executed_any) =>
        if executed_any then
          agentLoop provider spawnEnv auto_execute_safe fuel k2 msgs2 trs2
        else some (provider msgs, trs2)

/-- `AgentHost::agent_chat` (`lib.rs`): insert the agent system prompt at
the head of the conversation, then run at most 10 iterations of the
provider-call/extract/execute loop. -/
def agent_chat (provider : List ChatMessage → String)
    (spawnEnv : Nat → String → Nat → SpawnOutcome × Nat)
    (messages : List ChatMessage) (auto_execute_safe : Bool) :
    Option (String × List ToolResult) :=
  agentLoop provider spawnEnv auto_execute_safe 10 0
    ({ role := "system", content := agentSystemPrompt } :: messages) []

/-- Scripted provider: one safe command on the first turn (recognised by the
conversation still holding only the system prompt and the opening user
message), plain text afterwards. -/
def c2Provider (msgs : List ChatMessage) : String :=
  if msgs.length ≤ 2 then "<command>ls -la</command>" else "Done."

/-- Subprocess environment where every command completes instantly with
stdout `"ok"` and exit code 0. -/
def okSpawnEnv : Nat → String → Nat → SpawnOutcome × Nat :=
  fun _ _ _ => (SpawnOutcome.completed "ok" "" (some 0), 1)

/-- The result produced by `execute_command` under `okSpawnEnv` for
`"ls -la"`. -/
def c2Result : CommandResult :=
  { command := "ls -la", exit_code := 0, stdout := "ok", stderr := "",
    output := "ok", duration_ms := 1, success := true,
    summary := "Found 1 items (1ms)", needed_sudo := false }

/-- Subprocess oracle that would report a timeout if ever consulted. -/
def timeoutSpawn : String → Nat → SpawnOutcome × Nat :=
  fun _ _ => (SpawnOutcome.timedOut, 999)

/-- Elevated-subprocess oracle whose command exits 0 while printing a sudo
retry phrase on stderr (any process is free to write that phrase). -/
def sudoWrongPwOracle : String → Nat → SudoOutcome × Nat :=
  fun _ _ => (SudoOutcome.completed "" "Sorry, try again" (some 0), 5)

/-- Subprocess oracle for a normal, quiet, successful completion. -/
def c5SpawnDemo : String → Nat → SpawnOutcome × Nat :=
  fun _ _ => (SpawnOutcome.completed "hi" "" (some 0), 2)

/-- The result produced by `execute_command` under `c5SpawnDemo` for
`"echo hi"`. -/
def c5ResultDemo : CommandResult :=
  { command := "echo hi", exit_code := 0, stdout := "hi", stderr := "",
    output := "hi", duration_ms := 2, success := true,
    summary := "Complete (2ms)", needed_sudo := false }

/-- Scripted provider that never embeds a command directive. -/
def c8NoCmdProvider : List ChatMessage → String :=
  fun _ => "Hello! There is nothing to run."

/-- Scripted provider that always requests one auto-executable safe
command. -/
def c8LoopProvider : List ChatMessage → String :=
  fun _ => "<command>ls</command>"

/-- The result produced by `execute_command` under `okSpawnEnv` for
`"ls"`. -/
def c8Result : CommandResult :=
  { command := "ls", exit_code := 0, stdout := "ok", stderr := "",
    output := "ok", duration_ms := 1, success := true,
    summary := "Found 1 items (1ms)", needed_sudo := false }

/-- Elevated-subprocess oracle whose captured stderr is exactly the sudo
password prompt, with no trailing newline (sudo does not newline-terminate
its prompt when the password arrives on stdin). -/
def c9PromptOracle : String → Nat → SudoOutcome × Nat :=
  fun _ _ => (SudoOutcome.completed "" "[sudo] password for user: " (some 0), 1)

/-- Elevated-subprocess oracle whose captured stderr is the sudo prompt
line followed by further stderr output. -/
def c9GoodOracle : String → Nat → SudoOutcome × Nat :=
  fun _ _ =>
    (SudoOutcome.completed "" "[sudo] password for user: \nboom" (some 1), 2)

example : classify_command "ls -la" = DangerLevel.Safe := by decide
example : classify_command "rm file.txt" = DangerLevel.Dangerous := by decide
example : classify_command "rm -rf /" = DangerLevel.Blocked := by decide
example : classify_command "sudo apt update" = DangerLevel.NeedsSudo := by decide
example : classify_command "git status" = DangerLevel.Safe := by decide
example : rustLines "a\r\nb\n" = ["a", "b"] := by decide
example : rustLines "" = [] := by decide
example : rustLines "ok" = ["ok"] := by decide
example : combineOutput "ab".data "cd".data = some "ab\ncd".data := by decide
example : combineOutput "ab".data [] = some "ab".data := by decide
example : extract_commands "<command>ls -la</command>" = ["ls -la"] := by decide
example : extract_commands "run [EXECUTE] `git status` now" = ["git status"] := by
  decide
example : extract_commands "[RUN]\n```bash\nls\n# note\npwd\n```" = ["ls", "pwd"] := by
  decide
example : extract_commands "no directives here" = [] := by decide
example : extract_commands "<command>a\nb</command><command>c</command>" = ["c"] := by
  decide

/-- C1: every input string whose lowercased and trimmed form contains a
deny-list literal as a substring is classified `Blocked`, whatever else the
string looks like — the deny-list test is the first test `classify_command`
performs, so it dominates the sudo, dangerous, confirmation and safe
tiers. -/
theorem classify_blocked_substring (cmd b : String)
    (hb : b ∈ BLOCKED_COMMANDS)
    (h : containsSub (normalizeCmd cmd) b.data = true) :
    classify_command cmd = DangerLevel.Blocked := by
  unfold classify_command
  have hany : BLOCKED_COMMANDS.any
      (fun p => containsSub (normalizeCmd cmd) p.data) = true :=
    List.any_eq_true.mpr ⟨b, hb, h⟩
  simp [hany]

/-- Witness for C1 at a concrete input that is uppercased, padded with
whitespace, and starts with a safe-list prefix (`ls`), yet contains the
deny-list literal `rm -rf /`. -/
theorem classify_blocked_substring_witness :
    ("rm -rf /" ∈ BLOCKED_COMMANDS ∧
      containsSub (normalizeCmd "  LS && RM -RF /  ") "rm -rf /".data = true) ∧
    classify_command "  LS && RM -RF /  " = DangerLevel.Blocked :=
  ⟨⟨by decide, by decide⟩,
    classify_blocked_substring "  LS && RM -RF /  " "rm -rf /"
      (by decide) (by decide)⟩

/-- C3: `classify_command` is a total function by construction; any string
on which every table test fails (no deny-list substring, no `sudo ` prefix,
no dangerous prefix/space-preceded occurrence, no confirmation prefix, no
safe prefix, all after normalisation) falls through to the default
`NeedsConfirmation`, and in particular `"frobnicate --now"` and the empty
string are classified `NeedsConfirmation`. -/
theorem classify_default_needs_confirmation :
    (∀ cmd : String,
      BLOCKED_COMMANDS.any
        (fun b => containsSub (normalizeCmd cmd) b.data) = false →
      "sudo ".data.isPrefixOf (normalizeCmd cmd) = false →
      DANGEROUS_COMMANDS.any (fun d =>
        d.data.isPrefixOf (normalizeCmd cmd) ||
        containsSub (normalizeCmd cmd) (' ' :: d.data)) = false →
      NEEDS_CONFIRMATION.any
        (fun c => c.data.isPrefixOf (normalizeCmd cmd)) = false →
      SAFE_COMMANDS.any
        (fun s => s.data.isPrefixOf (normalizeCmd cmd)) = false →
      classify_command cmd = DangerLevel.NeedsConfirmation) ∧
    classify_command "frobnicate --now" = DangerLevel.NeedsConfirmation ∧
    classify_command "" = DangerLevel.NeedsConfirmation := by
  refine ⟨?_, by decide, by decide⟩
  intro cmd h1 h2 h3 h4 h5
  unfold classify_command
  simp [h1, h2, h3, h4, h5]

/-- Witness for C3: the default branch fires on a fresh unknown command. -/
theorem classify_default_needs_confirmation_witness :
    classify_command "zzzqq" = DangerLevel.NeedsConfirmation :=
  classify_default_needs_confirmation.1 "zzzqq"
    (by decide) (by decide) (by decide) (by decide) (by decide)

/-- C6 counterexample: the claim asserts that a dangerous verb occurring
only as a proper prefix of a longer token (its example being `"ls rmx"`)
is not classified `Dangerous`; but the source tests
`cmd_trimmed.contains(" rm")`, and `"ls rmx"` contains `" rm"`, so the
code classifies it `Dangerous`. -/
theorem classify_dangerous_token_counterexample :
    classify_command "ls rmx" = DangerLevel.Dangerous := by decide

/-- C6 (amended): a string with no deny-list substring and no `sudo `
prefix is classified `Dangerous` if and only if, after normalisation, it
starts with a dangerous-list literal or contains a space immediately
followed by a dangerous-list literal — the occurrence need not end at a
token boundary, so `"ls rmx"` is `Dangerous` alongside `"rm file.txt"`
and `"chmod 777 file"`. -/
theorem classify_dangerous_iff (cmd : String)
    (h1 : BLOCKED_COMMANDS.any
      (fun b => containsSub (normalizeCmd cmd) b.data) = false)
    (h2 : "sudo ".data.isPrefixOf (normalizeCmd cmd) = false) :
    classify_command cmd = DangerLevel.Dangerous ↔
      DANGEROUS_COMMANDS.any (fun d =>
        d.data.isPrefixOf (normalizeCmd cmd) ||
        containsSub (normalizeCmd cmd) (' ' :: d.data)) = true := by
  unfold classify_command
  rw [h1, h2]
  by_cases hd : DANGEROUS_COMMANDS.any (fun d =>
      d.data.isPrefixOf (normalizeCmd cmd) ||
      containsSub (normalizeCmd cmd) (' ' :: d.data)) = true
  · simp [hd]
  · rw [Bool.not_eq_true] at hd
    simp only [hd]
    by_cases hc : NEEDS_CONFIRMATION.any
        (fun c => c.data.isPrefixOf (normalizeCmd cmd)) = true
    · simp [hc]
    · rw [Bool.not_eq_true] at hc
      by_cases hs : SAFE_COMMANDS.any
          (fun s => s.data.isPrefixOf (normalizeCmd cmd)) = true
      · simp [hc, hs]
      · rw [Bool.not_eq_true] at hs
        simp [hc, hs]

/-- Witness for C6 at the claim's own positive examples. -/
theorem classify_dangerous_iff_witness :
    classify_command "rm file.txt" = DangerLevel.Dangerous ∧
    classify_command "chmod 777 file" = DangerLevel.Dangerous :=
  ⟨(classify_dangerous_iff "rm file.txt" (by decide) (by decide)).mpr
      (by decide),
    (classify_dangerous_iff "chmod 777 file" (by decide) (by decide)).mpr
      (by decide)⟩

/-- C10: `needs_confirmation` returns true exactly on the
`NeedsConfirmation`, `Dangerous` and `NeedsSudo` tiers, and in particular
returns false for `Blocked` commands exactly as for `Safe` ones — a caller
gating on it alone never learns a command is `Blocked`. -/
theorem needs_confirmation_spec :
    (∀ cmd : String, needs_confirmation cmd = true ↔
      (classify_command cmd = DangerLevel.NeedsConfirmation ∨
       classify_command cmd = DangerLevel.Dangerous ∨
       classify_command cmd = DangerLevel.NeedsSudo)) ∧
    (∀ cmd : String, classify_command cmd = DangerLevel.Blocked →
      needs_confirmation cmd = false) ∧
    (∀ cmd : String, classify_command cmd = DangerLevel.Safe →
      needs_confirmation cmd = false) := by
  refine ⟨?_, ?_, ?_⟩ <;> intro cmd <;> unfold needs_confirmation <;>
    cases h : classify_command cmd <;> simp [h]

/-- Witness for C10: a `Blocked` command and a `Safe` command both yield
`needs_confirmation = false`. -/
theorem needs_confirmation_spec_witness :
    needs_confirmation "rm -rf /" = false ∧
    needs_confirmation "ls -la" = false :=
  ⟨needs_confirmation_spec.2.1 "rm -rf /" (by decide),
    needs_confirmation_spec.2.2 "ls -la" (by decide)⟩

/-- C4: `execute_command` re-derives the classification and, for a
`Blocked` command, returns the fixed refusal result — `success = false`,
`duration_ms = 0`, the refusal text in `stderr`, `output` and a fixed
`summary` — without ever consulting the subprocess environment (the result
is the same for every `spawn` oracle, so the spawn path is unreachable
for `Blocked` commands even if the caller never checked). -/
theorem execute_command_blocked_short_circuit
    (spawn : String → Nat → SpawnOutcome × Nat) (cmd : String) (t : Nat)
    (h : classify_command cmd = DangerLevel.Blocked) :
    execute_command spawn cmd t =
      some { command := cmd, exit_code := -1, stdout := "",
             stderr := "This command is blocked for safety reasons.",
             output := "This command is blocked for safety reasons.",
             duration_ms := 0, success := false,
             summary := "Command blocked for safety",
             needed_sudo := false } := by
  unfold execute_command
  simp [h]

/-- Witness for C4: a deny-listed command under an oracle that would report
a timeout if the executor ever consulted it. -/
theorem execute_command_blocked_short_circuit_witness :
    execute_command timeoutSpawn "rm -rf /" 30 =
      some { command := "rm -rf /", exit_code := -1, stdout := "",
             stderr := "This command is blocked for safety reasons.",
             output := "This command is blocked for safety reasons.",
             duration_ms := 0, success := false,
             summary := "Command blocked for safety",
             needed_sudo := false } :=
  execute_command_blocked_short_circuit timeoutSpawn "rm -rf /" 30 (by decide)

/-- Exit-status bookkeeping shared by the executor branches: `code().unwrap_or(-1)`
is zero exactly when the status is a normal exit with code 0, which is
exactly when `ExitStatus::success()` holds. -/
theorem statusGetDZeroIff (st : Option Int) :
    (st.getD (-1) = 0 ↔ (st == some 0) = true) := by
  cases st with
  | none => simp
  | some n => simp [beq_iff_eq]

/-- Variant of `statusGetDZeroIff` for the sudo path, where `success` is
additionally conjoined with the negated wrong-password flag. -/
theorem statusGetDZeroIffAnd (st : Option Int) (w : Bool) (hw : w = false) :
    (st.getD (-1) = 0 ↔ ((st == some 0) && !w) = true) := by
  subst hw
  cases st with
  | none => simp
  | some n => simp [beq_iff_eq]

/-- C5 counterexample: `execute_with_sudo` can produce a `CommandResult`
from a normal completion with `exit_code = 0` and `success = false`: a
process free to write to stderr can emit the phrase `Sorry, try again`
while exiting 0, and the wrong-password heuristic then forces
`success = false`, breaking the claimed equivalence
`exit_code == 0 ⇔ success == true`. -/
theorem exit_code_success_counterexample :
    (execute_with_sudo sudoWrongPwOracle "ls" "pw" 30).toOption =
      some { command := "sudo ls", exit_code := 0, stdout := "",
             stderr := "Sorry, try again",
             output := "Sorry, try again", duration_ms := 5,
             success := false, summary := "Incorrect password",
             needed_sudo := true } := by decide

/-- C5 (amended): `execute_command` always satisfies
`exit_code = 0 ↔ success`; `execute_with_sudo` satisfies it whenever no
wrong-password phrase is detected in the (scrubbed) stderr — the detection
deliberately forces `success = false` even on exit code 0; and the timeout
and spawn-failure branches of both executors force `success = false` and
`exit_code = -1`. -/
theorem exit_code_success_invariants :
    (∀ (spawn : String → Nat → SpawnOutcome × Nat) (cmd : String) (t : Nat)
        (r : CommandResult), execute_command spawn cmd t = some r →
        (r.exit_code = 0 ↔ r.success = true)) ∧
    (∀ (spawn : String → Nat → SudoOutcome × Nat) (cmd pw : String) (t : Nat)
        (r : CommandResult),
        execute_with_sudo spawn cmd pw t = Except.ok r →
        (containsStr r.stderr "incorrect password" ||
         containsStr r.stderr "Sorry, try again" ||
         containsStr r.stderr "Authentication failure") = false →
        (r.exit_code = 0 ↔ r.success = true)) ∧
    (∀ (spawn : String → Nat → SpawnOutcome × Nat) (cmd : String) (t d : Nat),
        spawn cmd t = (SpawnOutcome.timedOut, d) →
        classify_command cmd ≠ DangerLevel.Blocked →
        ∃ r, execute_command spawn cmd t = some r ∧
          r.success = false ∧ r.exit_code = -1) ∧
    (∀ (spawn : String → Nat → SpawnOutcome × Nat) (cmd msg : String)
        (t d : Nat),
        spawn cmd t = (SpawnOutcome.spawnError msg, d) →
        classify_command cmd ≠ DangerLevel.Blocked →
        ∃ r, execute_command spawn cmd t = some r ∧
          r.success = false ∧ r.exit_code = -1) ∧
    (∀ (spawn : String → Nat → SudoOutcome × Nat) (cmd pw : String)
        (t d : Nat),
        spawn (stripSudo cmd) t = (SudoOutcome.timedOut, d) →
        ∃ r, execute_with_sudo spawn cmd pw t = Except.ok r ∧
          r.success = false ∧ r.exit_code = -1) ∧
    (∀ (spawn : String → Nat → SudoOutcome × Nat) (cmd pw msg : String)
        (t d : Nat),
        spawn (stripSudo cmd) t = (SudoOutcome.waitError msg, d) →
        ∃ r, execute_with_sudo spawn cmd pw t = Except.ok r ∧
          r.success = false ∧ r.exit_code = -1) := by
  refine ⟨?_, ?_, ?_, ?_, ?_, ?_⟩
  · intro spawn cmd t r h
    unfold execute_command at h
    split at h
    · obtain rfl := Option.some.inj h
      simp
    · split at h
      · split at h
        · cases h
        · obtain rfl := Option.some.inj h
          exact statusGetDZeroIff _
      · obtain rfl := Option.some.inj h
        simp
      · obtain rfl := Option.some.inj h
        simp
  · intro spawn cmd pw t r h hwp
    unfold execute_with_sudo at h
    split at h
    · cases h
    · obtain rfl := Except.ok.inj h
      exact statusGetDZeroIffAnd _ _ hwp
    · obtain rfl := Except.ok.inj h
      simp
    · obtain rfl := Except.ok.inj h
      simp
  · intro spawn cmd t d hsp hb
    refine ⟨{ command := cmd, exit_code := -1, stdout := "",
              stderr := "Command timed out",
              output := "Command timed out after " ++ toString t ++ " seconds",
              duration_ms := d, success := false,
              summary := "Timed out after " ++ toString t ++ "s",
              needed_sudo := false }, ?_, rfl, rfl⟩
    unfold execute_command
    rw [if_neg hb, hsp]
  · intro spawn cmd msg t d hsp hb
    refine ⟨{ command := cmd, exit_code := -1, stdout := "", stderr := msg,
              output := "Failed to execute: " ++ msg,
              duration_ms := d, success := false,
              summary := "Command failed: " ++ msg,
              needed_sudo := false }, ?_, rfl, rfl⟩
    unfold execute_command
    rw [if_neg hb, hsp]
  · intro spawn cmd pw t d hsp
    refine ⟨{ command := "sudo " ++ stripSudo cmd, exit_code := -1,
              stdout := "", stderr := "Command timed out",
              output := "Command timed out after " ++ toString t ++ " seconds",
              duration_ms := d, success := false,
              summary := "Timed out after " ++ toString t ++ "s",
              needed_sudo := true }, ?_, rfl, rfl⟩
    unfold execute_with_sudo
    rw [hsp]
  · intro spawn cmd pw msg t d hsp
    refine ⟨{ command := "sudo " ++ stripSudo cmd, exit_code := -1,
              stdout := "", stderr := msg,
              output := "Failed to execute: " ++ msg,
              duration_ms := d, success := false,
              summary := "Command failed: " ++ msg,
              needed_sudo := true }, ?_, rfl, rfl⟩
    unfold execute_with_sudo
    rw [hsp]

/-- Witness for C5 at a concrete quiet successful completion. -/
theorem exit_code_success_invariants_witness :
    execute_command c5SpawnDemo "echo hi" 30 = some c5ResultDemo ∧
    (c5ResultDemo.exit_code = 0 ↔ c5ResultDemo.success = true) :=
  ⟨by decide,
    exit_code_success_invariants.1 c5SpawnDemo "echo hi" 30 c5ResultDemo
      (by decide)⟩

/-- `byteLen` distributes over cons. -/
theorem byteLen_cons (c : Char) (l : List Char) :
    byteLen (c :: l) = charSize c + byteLen l := by
  simp [byteLen]

/-- Byte length of `n` ASCII `'a'`s followed by the two-byte character
`'é'`. -/
theorem byteLen_replicate_a (n : Nat) :
    byteLen (List.replicate n 'a' ++ ['é']) = n + 2 := by
  induction n with
  | zero => decide
  | succ k ih =>
    have h1 : charSize 'a' = 1 := by decide
    rw [List.replicate_succ, List.cons_append, byteLen_cons, h1, ih]
    omega

/-- Byte 10000 of a string made of `n` ASCII bytes followed by a two-byte
character is not a character boundary when the budget runs out inside the
final character: there is no character prefix of exactly `n + 1` bytes. -/
theorem utf8Prefix_replicate_a (n : Nat) :
    utf8Prefix (List.replicate n 'a' ++ ['é']) (n + 1) = none := by
  induction n with
  | zero => decide
  | succ k ih =>
    have h1 : charSize 'a' = 1 := by decide
    rw [List.replicate_succ, List.cons_append]
    show utf8Prefix ('a' :: (List.replicate k 'a' ++ ['é'])) (Nat.succ (k + 1)) =
      none
    rw [utf8Prefix, h1]
    have h2 : 1 ≤ Nat.succ (k + 1) := by omega
    rw [if_pos h2]
    have h3 : Nat.succ (k + 1) - 1 = k + 1 := by omega
    rw [h3, ih]
    rfl

/-- C7: the output-combining step of `execute_command` is not total: with
stdout consisting of 9999 `'a'`s followed by `'é'` (a two-byte character)
and empty stderr, the combined output is 10001 bytes, byte 10000 falls
inside the final character, and the source's `&combined[..10000]` slice
panics — modelled by `combineOutput` returning `none`.  This contradicts
the claim (and the spec's truncation property), so it is recorded as a
code bug at this input. -/
theorem truncation_char_boundary_fault :
    combineOutput (List.replicate 9999 'a' ++ ['é']) [] = none := by
  unfold combineOutput
  have hcc : combineChars (List.replicate 9999 'a' ++ ['é']) [] =
      List.replicate 9999 'a' ++ ['é'] := by
    unfold combineChars
    rw [if_pos (show ([] : List Char).isEmpty = true from rfl)]
  rw [hcc]
  have hb : byteLen (List.replicate 9999 'a' ++ ['é']) = 10001 := by
    have := byteLen_replicate_a 9999
    norm_num at this
    exact this
  rw [hb]
  have hp : utf8Prefix (List.replicate 9999 'a' ++ ['é']) 10000 = none := by
    have := utf8Prefix_replicate_a 9999
    norm_num at this
    exact this
  rw [if_pos (by norm_num), hp]

/-- `splitAtChar` at a newline splits at the first newline: the part before
it is the maximal newline-free leading segment, and the part after it is
the rest with the newline dropped; `none` when no newline occurs. -/
theorem splitAtNl_eq (s : List Char) :
    splitAtChar '\n' s =
      if '\n' ∈ s then
        some (s.takeWhile notNl, (s.dropWhile notNl).tail)
      else none := by
  induction s with
  | nil => simp [splitAtChar]
  | cons c t ih =>
    by_cases hc : c = '\n'
    · subst hc
      simp [splitAtChar, notNl]
    · rw [splitAtChar]
      rw [if_neg hc, ih]
      have hnl : notNl c = true := by simp [notNl, hc]
      by_cases hm : '\n' ∈ t
      · rw [if_pos hm, if_pos (List.mem_cons_of_mem c hm)]
        rw [List.takeWhile_cons, List.dropWhile_cons, hnl]
        simp
      · rw [if_neg hm]
        have : '\n' ∉ c :: t := by
          intro h
          rcases List.mem_cons.mp h with h | h
          · exact hc h.symm
          · exact hm h
        rw [if_neg this]

/-- The implementation scrub (`find` of the first newline plus byte
slices) agrees with the specification-style description `scrubSpec` on
every captured stderr. -/
theorem scrubSudoPrompt_eq_scrubSpec (serr : String) :
    String.mk (scrubSudoPrompt serr.data) = scrubSpec serr := by
  unfold scrubSudoPrompt scrubSpec
  rw [splitAtNl_eq]
  by_cases hm : '\n' ∈ serr.data
  · rw [if_pos hm]
    show String.mk
      (if (containsSub (serr.data.takeWhile notNl) "password for".data ||
          containsSub (serr.data.takeWhile notNl) "[sudo]".data) = true
        then (serr.data.dropWhile notNl).tail else serr.data) = _
    by_cases hp : (containsSub (serr.data.takeWhile notNl)
        "password for".data ||
      containsSub (serr.data.takeWhile notNl) "[sudo]".data) = true
    · rw [if_pos hp, if_pos ⟨hm, hp⟩]
    · rw [if_neg hp, if_neg (fun h => hp h.2)]
  · rw [if_neg hm]
    show String.mk serr.data = _
    rw [if_neg (fun h => hm h.1)]

/-- C9 counterexample: when the captured stderr is exactly the sudo
password prompt with no trailing newline — the shape sudo actually emits
when the password is supplied on stdin and the command writes nothing to
stderr — the source's scrub (which requires a `'\n'` to find a first line)
does not fire, and the returned `stderr` and `output` fields still contain
the prompt text, contradicting the claim that the prompt never appears in
any returned field. -/
theorem sudo_prompt_scrub_counterexample :
    (execute_with_sudo c9PromptOracle "ls" "pw" 30).toOption =
      some { command := "sudo ls", exit_code := 0, stdout := "",
             stderr := "[sudo] password for user: ",
             output := "[sudo] password for user: ", duration_ms := 1,
             success := true, summary := "Found 0 items (1ms)",
             needed_sudo := true } ∧
    containsStr "[sudo] password for user: " "[sudo]" = true := by
  refine ⟨by decide, by decide⟩

/-- C9 (amended): for every completed elevated run, the returned `stderr`
is the captured stderr with its first line removed when that stderr
contains a newline and the first line contains `"password for"` or
`"[sudo]"`, and is the captured stderr unchanged otherwise (in particular
a prompt not terminated by a newline, or a prompt phrase recurring on a
later line, is not removed). -/
theorem sudo_prompt_scrub_amended (spawn : String → Nat → SudoOutcome × Nat)
    (cmd pw : String) (t : Nat) (sout serr : String) (st : Option Int)
    (d : Nat)
    (hsp : spawn (stripSudo cmd) t = (SudoOutcome.completed sout serr st, d)) :
    (execute_with_sudo spawn cmd pw t).toOption.map CommandResult.stderr =
      some (scrubSpec serr) := by
  unfold execute_with_sudo
  rw [hsp]
  show some _ = _
  rw [scrubSudoPrompt_eq_scrubSpec serr]

/-- Witness for C9: a prompt first line followed by real stderr output is
scrubbed down to the real output. -/
theorem sudo_prompt_scrub_amended_witness :
    (execute_with_sudo c9GoodOracle "sudo ls" "pw" 30).toOption.map
        CommandResult.stderr =
      some (scrubSpec "[sudo] password for user: \nboom") ∧
    scrubSpec "[sudo] password for user: \nboom" = "boom" :=
  ⟨sudo_prompt_scrub_amended c9GoodOracle "sudo ls" "pw" 30 ""
      "[sudo] password for user: \nboom" (some 1) 2 (by decide),
    by decide⟩

/-- Every tool result added by the per-command pass either was already
accumulated or records a command classified `Safe` while auto-execution was
enabled: the only branch of `processCommands` that records a result is the
`should_execute` branch. -/
theorem processCommands_mem (spawnEnv : Nat → String → Nat → SpawnOutcome × Nat)
    (auto : Bool) (response : String) :
    ∀ (cmds : List String) (k : Nat) (msgs : List ChatMessage)
      (trs : List ToolResult) (ex : Bool)
      (out : Nat × List ChatMessage × List ToolResult × Bool),
      processCommands spawnEnv auto response cmds k msgs trs ex = some out →
      ∀ tr ∈ out.2.2.1, tr ∈ trs ∨
        (classify_command tr.command = DangerLevel.Safe ∧ auto = true) := by
  intro cmds
  induction cmds with
  | nil =>
    intro k msgs trs ex out h tr htr
    rw [processCommands] at h
    obtain rfl := Option.some.inj h
    exact Or.inl htr
  | cons cmd rest ih =>
    intro k msgs trs ex out h tr htr
    rw [processCommands] at h
    split at h
    · rename_i hcond
      have hsafe : classify_command cmd = DangerLevel.Safe ∧ auto = true := by
        cases hcl : classify_command cmd <;> rw [hcl] at hcond
        case Safe => exact ⟨rfl, hcond⟩
        all_goals exact Bool.noConfusion (show false = true from hcond)
      split at h
      · cases h
      · rename_i result hex
        rcases ih _ _ _ _ _ h tr htr with hin | hP
        · rcases List.mem_append.mp hin with hin2 | hin2
          · exact Or.inl hin2
          · obtain rfl := List.mem_singleton.mp hin2
            exact Or.inr hsafe
        · exact Or.inr hP
    · split at h
      · exact ih _ _ _ _ _ h tr htr
      · exact ih _ _ _ _ _ h tr htr

/-- Every tool result accumulated by the bounded loop either was in the
initial accumulator or records a `Safe` command executed with
auto-execution enabled. -/
theorem agentLoop_mem (provider : List ChatMessage → String)
    (spawnEnv : Nat → String → Nat → SpawnOutcome × Nat) (auto : Bool) :
    ∀ (fuel k : Nat) (msgs : List ChatMessage) (trs : List ToolResult)
      (out : String × List ToolResult),
      agentLoop provider spawnEnv auto fuel k msgs trs = some out →
      ∀ tr ∈ out.2, tr ∈ trs ∨
        (classify_command tr.command = DangerLevel.Safe ∧ auto = true) := by
  intro fuel
  induction fuel with
  | zero =>
    intro k msgs trs out h tr htr
    rw [agentLoop] at h
    obtain rfl := Option.some.inj h
    exact Or.inl htr
  | succ n ih =>
    intro k msgs trs out h tr htr
    rw [agentLoop] at h
    split at h
    · obtain rfl := Option.some.inj h
      exact Or.inl htr
    · split at h
      · cases h
      · rename_i k2 msgs2 trs2 executed hpc
        split at h
        · rcases ih _ _ _ _ h tr htr with hin | hP
          · exact processCommands_mem spawnEnv auto _ _ _ _ _ _ _ hpc tr hin
          · exact Or.inr hP
        · obtain rfl := Option.some.inj h
          exact processCommands_mem spawnEnv auto _ _ _ _ _ _ _ hpc tr htr

/-- C2: in the agent loop, every recorded tool result — that is, every
command the loop ever passed to `execute_command` — is classified `Safe`
and was executed with `auto_execute_safe` enabled; `Blocked`,
`NeedsConfirmation`, `Dangerous` and `NeedsSudo` commands are never
executed, and nothing is executed when `auto_execute_safe` is false. -/
theorem agent_chat_only_safe_executed (provider : List ChatMessage → String)
    (spawnEnv : Nat → String → Nat → SpawnOutcome × Nat)
    (messages : List ChatMessage) (auto : Bool)
    (out : String × List ToolResult)
    (h : agent_chat provider spawnEnv messages auto = some out) :
    ∀ tr ∈ out.2,
      classify_command tr.command = DangerLevel.Safe ∧ auto = true := by
  intro tr htr
  rcases agentLoop_mem provider spawnEnv auto 10 0 _ [] out h tr htr with
    hin | hP
  · exact absurd hin (List.not_mem_nil tr)
  · exact hP

/-- Witness for C2: a scripted run that executes exactly one safe command
and then finishes. -/
theorem agent_chat_only_safe_executed_witness :
    agent_chat c2Provider okSpawnEnv [{ role := "user", content := "hi" }]
        true =
      some ("Done.", [{ command := "ls -la", result := c2Result }]) ∧
    (classify_command "ls -la" = DangerLevel.Safe ∧ true = true) :=
  ⟨by decide,
    agent_chat_only_safe_executed c2Provider okSpawnEnv
      [{ role := "user", content := "hi" }] true
      ("Done.", [{ command := "ls -la", result := c2Result }]) (by decide)
      { command := "ls -la", result := c2Result } (by decide)⟩

/-- C8: the loop performs at most 10 iterations.  With a provider whose
response contains no extractable command, `agent_chat` returns after the
first iteration with that response and no tool results (for every
auto-execute setting and every subprocess environment); with a provider
that always returns one auto-executable `Safe` command and
`auto_execute_safe = true`, it runs exactly 10 iterations, executing one
command per iteration, and returns the fixed maximum-iterations message
with the 10 accumulated tool results. -/
theorem agent_chat_iteration_bounds :
    (∀ (auto : Bool) (spawnEnv : Nat → String → Nat → SpawnOutcome × Nat),
      agent_chat c8NoCmdProvider spawnEnv
          [{ role := "user", content := "hi" }] auto =
        some ("Hello! There is nothing to run.", [])) ∧
    agent_chat c8LoopProvider okSpawnEnv
        [{ role := "user", content := "hi" }] true =
      some (maxIterationsMessage,
        List.replicate 10 { command := "ls", result := c8Result }) := by
  constructor
  · intro auto spawnEnv
    rfl
  · decide
